import Mathlib

/-!
Verification of the ff_docs documentation-aggregation service.

This file gives a shallow embedding, in Lean, of the parts of the source
that the claims concern:

* ff_docs/auth/repository_permissions.py
  (GITHUB_ROLE_MAPPING, the permission cache, check_repository_access,
  clear_user_cache),
* ff_docs/auth/repository_middleware.py
  (RepositoryScopedAuthMiddleware.dispatch, the URL patterns,
  get_required_permission_for_method),
* ff_docs/server/routes/webhooks.py
  (verify_github_signature and the signature gate of handle_github_webhook),
* ff_docs/pipeline/rewriter.py
  (the MarkdownLinkRewriter URL rewriting chain),
* ff_docs/aggregator/enrollment.py
  (unenroll_repository).

Python strings are modelled as Lean String values; Python string slicing,
startswith, endswith, split and containment are modelled by explicit
functions on the underlying character lists below.  Time is modelled as a
nonnegative integer number of seconds.  Network responses, the HMAC
primitive and the downstream ASGI handler are parameters of the embedded
functions, since they are external to the code under verification.
-/

/-- Model of Python str.startswith: p is a prefix of s (on code points). -/
def listStarts : List Char → List Char → Bool
  | _, [] => true
  | [], _ :: _ => false
  | c :: cs, d :: ds => c == d && listStarts cs ds

/-- Model of Python str.startswith on String values. -/
def pyStartswith (s p : String) : Bool :=
  listStarts s.data p.data

/-- Model of Python str.endswith: p is a suffix of s (on code points). -/
def pyEndswith (s p : String) : Bool :=
  listStarts s.data.reverse p.data.reverse

/-- Model of the Python slice s[n:] (by code points). -/
def pySliceFrom (s : String) (n : Nat) : String :=
  String.mk (s.data.drop n)

/-- Model of the Python slice s[:n] (by code points). -/
def pySliceTo (s : String) (n : Nat) : String :=
  String.mk (s.data.take n)

/-- Model of Python str.removeprefix. -/
def pyRemoveAtStart (s p : String) : String :=
  if pyStartswith s p then pySliceFrom s p.data.length else s

/-- Model of Python s.split(c, 1) for a one-character separator: the part
before the first occurrence of c, and, when c occurs, the part after it. -/
def pySplitOnce (s : String) (c : Char) : String × Option String :=
  let pre := s.data.takeWhile (fun d => d != c)
  match s.data.dropWhile (fun d => d != c) with
  | [] => (String.mk pre, none)
  | _ :: rest => (String.mk pre, some (String.mk rest))

/-- Substring occurrence, sub occurs somewhere in s: model of the Python
expression sub in s. -/
def listHasInfix (sub : List Char) : List Char → Bool
  | [] => listStarts [] sub
  | c :: t => listStarts (c :: t) sub || listHasInfix sub t

/-- Model of the Python expression sub in s on String values. -/
def pyContains (s sub : String) : Bool :=
  listHasInfix sub.data s.data

/-- Model of Python str.lstrip with a slash argument: drop all leading
slash characters. -/
def pyLstripSlash (s : String) : String :=
  String.mk (s.data.dropWhile (fun c => c == '/'))

/-- Split a character list on a separator character, keeping empty
segments, as Python str.split with a one-character separator does. -/
def splitOnChar (c : Char) : List Char → List (List Char)
  | [] => [[]]
  | d :: rest =>
      let r := splitOnChar c rest
      if d == c then [] :: r
      else
        match r with
        | [] => [[d]]
        | h :: t => (d :: h) :: t

/-- Join segments with slashes, inverse of splitting on a slash. -/
def joinSlash : List String → List Char
  | [] => []
  | [p] => p.data
  | p :: rest => p.data ++ '/' :: joinSlash rest

/-- Model of Python str.upper for the ASCII method names used here. -/
def pyUpper (s : String) : String :=
  String.mk (s.data.map Char.toUpper)

/-- Model of Python str.lower for the ASCII names used here. -/
def pyLower (s : String) : String :=
  String.mk (s.data.map Char.toLower)

/- ---------------------------------------------------------------------
ff_docs/auth/repository_permissions.py
--------------------------------------------------------------------- -/

/-- GITHUB_ROLE_MAPPING from repository_permissions.py lines 16 to 22,
verbatim as an association list. -/
def GITHUB_ROLE_MAPPING : List (String × List String) :=
  [("read", ["repo:read"]),
   ("triage", ["repo:read", "repo:triage"]),
   ("write", ["repo:read", "repo:write"]),
   ("maintain", ["repo:read", "repo:write", "repo:maintain"]),
   ("admin", ["repo:read", "repo:write", "repo:maintain", "repo:admin"])]

/-- GITHUB_ROLE_MAPPING.get(role, []) from line 172. -/
def roleMappingGet (role : String) : List String :=
  (GITHUB_ROLE_MAPPING.lookup role).getD []

/-- The keys of GITHUB_ROLE_MAPPING. -/
def roleNames : List String :=
  GITHUB_ROLE_MAPPING.map Prod.fst

/-- Rank of a role in the order read < triage < write < maintain < admin
used by the specification (position in the mapping table). -/
def roleRank (role : String) : Nat :=
  (roleNames.indexOf role)

/-- The permission data dictionary built by _get_repository_permission
(lines 174 to 181 and 190 to 197), without the cached_at stamp. -/
structure PermData where
  username : String
  repository : String
  githubPermission : String
  permissions : List String
  roleName : Option String
  hasAccess : Bool
deriving Repr, DecidableEq

/-- A cache entry: permission data plus the cached_at timestamp added by
_cache_permission (lines 53 to 61).  Time is in seconds. -/
structure CacheEntry extends PermData where
  cachedAt : Nat
deriving Repr, DecidableEq

/-- The permission cache, a Python dict keyed by username:repo_name,
modelled as an association list. -/
abbrev Cache : Type := List (String × CacheEntry)

/-- Python dict assignment d[k] = v: replace the binding when the key is
present, append it otherwise. -/
def dictInsert (k : String) (v : CacheEntry) (d : Cache) : Cache :=
  if (List.lookup k d).isSome then
    d.map (fun kv => if kv.1 = k then (k, v) else kv)
  else
    d ++ [(k, v)]

/-- Python del d[k], removing the binding for key k. -/
def dictErase (k : String) (d : Cache) : Cache :=
  d.filter (fun kv => kv.1 != k)

/-- _get_cache_key (lines 40 to 42): the f-string username:repo_name. -/
def getCacheKey (username repoName : String) : String :=
  username ++ ":" ++ repoName

/-- Cache TTL: self._cache_ttl_minutes = 10, as seconds. -/
def cacheTtlSeconds : Nat := 10 * 60

/-- _is_cache_valid (lines 44 to 51): the entry is valid when now is
strictly before cached_at plus the TTL.  The cached_at truthiness guard of
line 47 is always satisfied by entries this model builds, since every
entry carries a timestamp. -/
def isCacheValid (now : Nat) (e : CacheEntry) : Bool :=
  now < e.cachedAt + cacheTtlSeconds

/-- _get_cached_permission (lines 63 to 80): returns the entry when it is
present and valid; deletes it from the cache when present but expired.
The result pairs the optional entry with the cache after the call. -/
def getCachedPermission (cache : Cache) (now : Nat) (username repoName : String) :
    Option CacheEntry × Cache :=
  let key := getCacheKey username repoName
  match List.lookup key cache with
  | some e =>
      if isCacheValid now e then (some e, cache)
      else (none, dictErase key cache)
  | none => (none, cache)

/-- The possible outcomes of the GitHub collaborator-permission HTTP call
made by _get_repository_permission: a 200 response carrying a role string
and role name, a 404, any other status, or a raised network error. -/
inductive GithubResponse where
  | ok (role : String) (roleName : Option String)
  | notFound
  | otherStatus
  | err
deriving Repr, DecidableEq

/-- _get_repository_permission (lines 141 to 210).  Returns none when the
organization is not configured, on an unexpected status code, or on an
exception; otherwise builds the permission data dictionary, mapping the
returned role through GITHUB_ROLE_MAPPING with default empty list. -/
def getRepositoryPermission (username repoName : String) (org : Option String)
    (resp : GithubResponse) : Option PermData :=
  match org with
  | none => none
  | some _ =>
      match resp with
      | .ok role roleName =>
          some { username := username, repository := repoName,
                 githubPermission := role,
                 permissions := roleMappingGet role,
                 roleName := roleName,
                 hasAccess := role != "none" }
      | .notFound =>
          some { username := username, repository := repoName,
                 githubPermission := "none",
                 permissions := [],
                 roleName := none,
                 hasAccess := false }
      | .otherStatus => none
      | .err => none

/-- check_repository_access (lines 82 to 139).  Parameters org and resp
stand for the configured organization and the GitHub response consumed on
a fresh lookup; exc injects an exception raised during the try body (the
except handler of lines 131 to 137 returns False).  The result triple is
the returned Bool, the cache after the call, and whether a fresh GitHub
lookup was performed. -/
def check_repository_access (cache : Cache) (now : Nat)
    (username repoName requiredPermission : String) (org : Option String)
    (resp : GithubResponse) (exc : Option String) : Bool × Cache × Bool :=
  match exc with
  | some _ => (false, cache, false)
  | none =>
      let (cached, cache1) := getCachedPermission cache now username repoName
      match cached with
      | some e =>
          (e.permissions.contains ("repo:" ++ requiredPermission), cache1, false)
      | none =>
          match getRepositoryPermission username repoName org resp with
          | some pd =>
              let entry : CacheEntry := { toPermData := pd, cachedAt := now }
              let cache2 := dictInsert (getCacheKey username repoName) entry cache1
              (pd.permissions.contains ("repo:" ++ requiredPermission), cache2, true)
          | none => (false, cache1, true)

/-- clear_user_cache (lines 312 to 323): remove every entry whose key
starts with username followed by a colon. -/
def clear_user_cache (username : String) (cache : Cache) : Cache :=
  cache.filter (fun kv => !(pyStartswith kv.1 (username ++ ":")))

/- ---------------------------------------------------------------------
ff_docs/auth/repository_middleware.py
--------------------------------------------------------------------- -/

/-- A Python exception reaching the dispatch handler: either a FastAPI
HTTPException with a status code and a detail message, or any other
exception. -/
inductive PyExc where
  | http (statusCode : Nat) (detail : String)
  | other (msg : String)
deriving Repr, DecidableEq

/-- Outcome of a Python call: a returned value or a raised exception. -/
inductive PyResult (A : Type) where
  | ok (a : A)
  | raised (e : PyExc)
deriving Repr, DecidableEq

/-- An HTTP response, abstracted to an identifying body. -/
structure Response where
  body : String
deriving Repr, DecidableEq

/-- An incoming HTTP request: path, method and headers. -/
structure PyRequest where
  path : String
  method : String
  headers : List (String × String)
deriving Repr, DecidableEq

/-- request.headers.get(k): lookup in the header list. -/
def headerGet (headers : List (String × String)) (k : String) : Option String :=
  List.lookup k headers

/-- _is_public_endpoint (lines 111 to 113) with the public_patterns list of
lines 39 to 48.  Each regex is anchored at the start only, so a pattern
such as a slash-health-slash-question mark regex accepts any path that
begins with slash health. -/
def isPublicEndpoint (path : String) : Bool :=
  pyStartswith path "/health" ||
  pyStartswith path "/auth" ||
  (path == "/docs" || path == "/docs/") ||
  pyStartswith path "/docs/overview" ||
  pyStartswith path "/docs/getting-started" ||
  path == "/openapi.json" ||
  path == "/docs" ||
  path == "/redoc"

/-- One repository URL pattern: the literal pattern head followed by a
nonempty run of non-slash characters captured as repo_name. -/
def extractRepoWith (head : String) (path : String) : Option String :=
  if pyStartswith path head then
    let rest := (pySliceFrom path head.data.length).data
    let name := rest.takeWhile (fun c => c != '/')
    if name.isEmpty then none else some (String.mk name)
  else none

/-- _extract_repository_from_url (lines 115 to 121) over the
repository_patterns of lines 28 to 36, tried in order. -/
def extractRepositoryFromUrl (path : String) : Option String :=
  match extractRepoWith "/docs/repo/" path with
  | some r => some r
  | none =>
  match extractRepoWith "/api/repos/" path with
  | some r => some r
  | none =>
  match extractRepoWith "/site/" path with
  | some r => some r
  | none => extractRepoWith "/projects/" path

/-- _get_username_from_request (lines 123 to 140): with OAuth2-Proxy
enabled, a nonempty value of the configured user header; the JWT branch
returns None in the source. -/
def getUsernameFromRequest (oauth2Enabled : Bool) (userHeader : String)
    (req : PyRequest) : Option String :=
  if oauth2Enabled then
    match headerGet req.headers userHeader with
    | some u => if u == "" then none else some u
    | none => none
  else none

/-- _get_access_token_from_request (lines 142 to 154): the
X-Auth-Request-Access-Token header when nonempty, else the Authorization
header stripped of its Bearer prefix. -/
def getAccessTokenFromRequest (req : PyRequest) : Option String :=
  let fromAuth :=
    match headerGet req.headers "Authorization" with
    | some a =>
        if a == "" then none
        else if pyStartswith a "Bearer " then some (pySliceFrom a 7) else none
    | none => none
  match headerGet req.headers "X-Auth-Request-Access-Token" with
  | some t => if t == "" then fromAuth else some t
  | none => fromAuth

/-- _validate_repository_access (lines 156 to 199).  The permission
manager is abstracted as pm taking username, repository, token and the
required permission.  The second component records the required_permission
values passed to check_repository_access; line 182 passes the literal
string read.  The except handler of lines 192 to 197 cannot fire in this
model because every step here is total. -/
def validateRepositoryAccess (pm : String → String → String → String → Bool)
    (oauth2Enabled : Bool) (userHeader : String) (req : PyRequest)
    (repoName : String) : Bool × List String :=
  match getUsernameFromRequest oauth2Enabled userHeader req with
  | none => (false, [])
  | some username =>
      match getAccessTokenFromRequest req with
      | none => (false, [])
      | some token =>
          if token == "" then (false, [])
          else (pm username repoName token "read", ["read"])

/-- _raise_repository_access_denied (lines 99 to 109), condensed to the
403 status and its message. -/
def repositoryAccessDenied (repoName : String) : PyExc :=
  .http 403 ("You do not have access to repository " ++ repoName)

/-- RepositoryScopedAuthMiddleware.dispatch (lines 50 to 97).  callNext1
is the outcome of the call_next invocation inside the try block, callNext2
the outcome of the call_next invocation in the generic except handler.
The second component of the result records every required_permission value
passed to the permission manager during the call. -/
def dispatch (pm : String → String → String → String → Bool)
    (oauth2Enabled : Bool) (userHeader : String) (req : PyRequest)
    (callNext1 callNext2 : PyResult Response) : PyResult Response × List String :=
  let bodyAndTrace : PyResult Response × List String :=
    if isPublicEndpoint req.path then (callNext1, [])
    else
      match extractRepositoryFromUrl req.path with
      | some repoName =>
          let (hasAccess, trace) :=
            validateRepositoryAccess pm oauth2Enabled userHeader req repoName
          if hasAccess then (callNext1, trace)
          else (.raised (repositoryAccessDenied repoName), trace)
      | none => (callNext1, [])
  match bodyAndTrace with
  | (.ok r, trace) => (.ok r, trace)
  | (.raised (.http c d), trace) => (.raised (.http c d), trace)
  | (.raised (.other _), trace) => (callNext2, trace)

/-- The method_permissions dict of lines 203 to 210. -/
def methodPermissions : List (String × String) :=
  [("GET", "read"), ("HEAD", "read"), ("POST", "write"),
   ("PUT", "write"), ("PATCH", "write"), ("DELETE", "admin")]

/-- get_required_permission_for_method (lines 201 to 211). -/
def get_required_permission_for_method (method : String) : String :=
  (List.lookup (pyUpper method) methodPermissions).getD "read"

/- ---------------------------------------------------------------------
ff_docs/server/routes/webhooks.py
--------------------------------------------------------------------- -/

/-- verify_github_signature (lines 54 to 77).  The HMAC-SHA256 lowercase
hex digest is abstracted as hmacHex, taking the secret and the payload
bytes; hmac.compare_digest is equality of the digest strings. -/
def verify_github_signature (hmacHex : String → List Nat → String)
    (payload : List Nat) (signature : String) (secret : String) : Bool :=
  if !(pyStartswith signature "sha256=") then false
  else hmacHex secret payload == pySliceFrom signature 7

/-- Outcome of the signature gate at the top of handle_github_webhook. -/
inductive WebhookGate where
  | unauthorized
  | proceed
deriving Repr, DecidableEq

/-- The signature-verification gate of handle_github_webhook (lines 143
to 153): the 401 is raised only when the configured webhook secret is
truthy and verification fails.  signatureHeader is the raw
x-hub-signature-256 header, absent modelled as none and defaulted to the
empty string as on line 132. -/
def webhookSignatureGate (hmacHex : String → List Nat → String)
    (webhookSecret : Option String) (payload : List Nat)
    (signatureHeader : Option String) : WebhookGate :=
  let signature := signatureHeader.getD ""
  let secretStr := webhookSecret.getD ""
  if secretStr != "" &&
      !(verify_github_signature hmacHex payload signature secretStr) then
    .unauthorized
  else
    .proceed

/- ---------------------------------------------------------------------
ff_docs/pipeline/rewriter.py
--------------------------------------------------------------------- -/

/-- LinkRewriteRule (lines 23 to 29). -/
structure LinkRewriteRule where
  repoName : String
  basePath : String
  docsDir : String := "docs"
  preserveAnchors : Bool := true
  preserveQueryParams : Bool := true
deriving Repr, DecidableEq

/-- A pathlib PurePosixPath: whether it is absolute, and its components.
Parsing collapses repeated slashes and drops single-dot components, as
pathlib does; double-dot components are kept. -/
structure PyPath where
  absolute : Bool
  parts : List String
deriving Repr, DecidableEq

/-- Path(s): parse a string into a PyPath. -/
def parsePath (s : String) : PyPath :=
  { absolute := pyStartswith s "/",
    parts := ((splitOnChar '/' s.data).map String.mk).filter
      (fun seg => seg != "" && seg != ".") }

/-- Path.parent: drop the last component. -/
def pathParent (p : PyPath) : PyPath :=
  { p with parts := p.parts.dropLast }

/-- The slash operator joining a path with a relative path. -/
def pathJoin (p : PyPath) (q : PyPath) : PyPath :=
  if q.absolute then q else { p with parts := p.parts ++ q.parts }

/-- Lexical normalization of components performed by Path.resolve on a
path that does not exist on disk: a double-dot removes the preceding
component (and is dropped at the root). -/
def normalizeParts (parts : List String) : List String :=
  parts.foldl (fun acc seg => if seg == ".." then acc.dropLast else acc ++ [seg]) []

/-- Path.resolve(): make the path absolute against the current working
directory of the process (given by its components cwd) and normalize
double-dot components.  Symlink resolution does not apply because the
joined documentation paths do not exist on disk. -/
def pathResolve (cwd : List String) (p : PyPath) : PyPath :=
  { absolute := true,
    parts := normalizeParts ((if p.absolute then [] else cwd) ++ p.parts) }

/-- str(path) for the resolved (absolute) and relative cases. -/
def pathToString (p : PyPath) : String :=
  if p.absolute then String.mk ('/' :: joinSlash p.parts)
  else if p.parts.isEmpty then "." else String.mk (joinSlash p.parts)

/-- Path(s).name: the final component, empty for the root. -/
def pathName (s : String) : String :=
  ((parsePath s).parts.getLast?).getD ""

/-- _resolve_relative_path (lines 203 to 229): strip a leading dot-slash,
join onto the source directory, and resolve.  The OSError fallback of
line 227 is unreachable in this model since resolution is total. -/
def resolveRelativePath (cwd : List String) (sourceDir : PyPath)
    (relativePath : String) : PyPath :=
  let rel := pyRemoveAtStart relativePath "./"
  pathResolve cwd (pathJoin sourceDir (parsePath rel))

/-- urllib urljoin restricted to the use on line 264: the base is an
absolute path (no scheme, netloc, query or fragment) and the reference is
a relative path.  The reference is appended to the base truncated after
its last slash.  Dot-segment removal is omitted: the references produced
by _convert_to_unified_path are already normalized by Path.resolve. -/
def urljoinRel (base rel : String) : String :=
  if rel == "" then base
  else
    let kept := (base.data.reverse.dropWhile (fun c => c != '/')).reverse
    String.mk kept ++ rel

/-- _convert_to_unified_path (lines 231 to 273).  The backslash
replacement of line 245 is the identity on POSIX paths and is omitted. -/
def convertToUnifiedPath (resolvedPath : PyPath) (rule : LinkRewriteRule) : String :=
  let pathStr := pathToString resolvedPath
  let pathStr :=
    if pyStartswith pathStr (rule.docsDir ++ "/") then
      pySliceFrom pathStr (rule.docsDir.data.length + 1)
    else if pyStartswith pathStr rule.docsDir then
      pySliceFrom pathStr rule.docsDir.data.length
    else pathStr
  let pathStr :=
    if pyEndswith pathStr ".md" then
      pySliceTo pathStr (pathStr.data.length - 3) ++ "/"
    else if pyEndswith pathStr ".rst" then
      pySliceTo pathStr (pathStr.data.length - 4) ++ "/"
    else pathStr
  let pathStr := if pyStartswith pathStr "/" then pathStr else "/" ++ pathStr
  let unifiedPath := urljoinRel rule.basePath (pyLstripSlash pathStr)
  if !(pyEndswith unifiedPath "/") && !(pyContains (pathName unifiedPath) ".") then
    unifiedPath ++ "/"
  else unifiedPath

/-- _rewrite_url (lines 155 to 201): split off anchor and query, resolve
the path part against the directory of the source file, convert to the
unified format, and reattach query and anchor per the preserve flags.
cwd is the working directory of the process, which Path.resolve consults
on line 224. -/
def rewriteUrl (cwd : List String) (originalUrl : String)
    (rule : LinkRewriteRule) (sourceFilePath : String) : String :=
  let (baseUrl, anchorOpt) := pySplitOnce originalUrl '#'
  let anchor := match anchorOpt with | some a => "#" ++ a | none => ""
  let (pathPart, queryOpt) := pySplitOnce baseUrl '?'
  let query := match queryOpt with | some q => "?" ++ q | none => ""
  let sourceDir := pathParent (parsePath sourceFilePath)
  let resolvedPath := resolveRelativePath cwd sourceDir pathPart
  let unifiedPath := convertToUnifiedPath resolvedPath rule
  let result := unifiedPath
  let result := if query != "" && rule.preserveQueryParams then result ++ query else result
  let result := if anchor != "" && rule.preserveAnchors then result ++ anchor else result
  result

/-- The link rewriting that the rewriter tests in
tests/unit/pipeline/test_rewriter.py expect.  Modelled from the spec:
the resolution step handles dot-dot segments relative to the source
directory alone, with no dependence on the process working directory
(the resolve call of rewriter.py line 224 is replaced by pure lexical
normalization of the joined relative path). -/
def rewriteUrlIntended (originalUrl : String) (rule : LinkRewriteRule)
    (sourceFilePath : String) : String :=
  let (baseUrl, anchorOpt) := pySplitOnce originalUrl '#'
  let anchor := match anchorOpt with | some a => "#" ++ a | none => ""
  let (pathPart, queryOpt) := pySplitOnce baseUrl '?'
  let query := match queryOpt with | some q => "?" ++ q | none => ""
  let sourceDir := pathParent (parsePath sourceFilePath)
  let joined := pathJoin sourceDir (parsePath (pyRemoveAtStart pathPart "./"))
  let resolvedPath : PyPath :=
    { absolute := joined.absolute, parts := normalizeParts joined.parts }
  let unifiedPath := convertToUnifiedPath resolvedPath rule
  let result := unifiedPath
  let result := if query != "" && rule.preserveQueryParams then result ++ query else result
  let result := if anchor != "" && rule.preserveAnchors then result ++ anchor else result
  result

/- ---------------------------------------------------------------------
ff_docs/aggregator/enrollment.py
--------------------------------------------------------------------- -/

/-- A YAML value as loaded by the MkDocs config loader: a scalar string,
a sequence, or a mapping with string keys. -/
inductive Yaml where
  | str (s : String)
  | seq (xs : List Yaml)
  | map (kvs : List (String × Yaml))

/-- The per-entry predicate of unenroll_repository lines 179 to 185: the
entry is a mapping one of whose keys case-insensitively contains the
repository name. -/
def entryMatchesRepo (repositoryName : String) (entry : Yaml) : Bool :=
  match entry with
  | .map kvs => kvs.any (fun kv => pyContains (pyLower kv.1) (pyLower repositoryName))
  | _ => false

/-- The navigation loop of unenroll_repository lines 169 to 188: find the
first mapping item with a Projects key, filter its list of entries, and
stop.  Returns the updated navigation list and whether the filter removed
anything. -/
def unenrollNav (repositoryName : String) : List Yaml → List Yaml × Bool
  | [] => ([], false)
  | item :: rest =>
      match item with
      | .map kvs =>
          (match List.lookup "Projects" kvs with
           | some (.seq projects) =>
               let newProjects :=
                 projects.filter (fun e => !(entryMatchesRepo repositoryName e))
               let removed := decide (newProjects.length < projects.length)
               let newItem := Yaml.map (kvs.map (fun kv =>
                 if kv.1 = "Projects" then (kv.1, Yaml.seq newProjects) else kv))
               (newItem :: rest, removed)
           | some _ => (item :: rest, false)
           | none =>
               let (r, b) := unenrollNav repositoryName rest
               (item :: r, b))
      | _ =>
          let (r, b) := unenrollNav repositoryName rest
          (item :: r, b)

/-- The durable state touched by unenroll_repository: the parsed content
of the on-disk MkDocs YAML config, and the backup file if one exists. -/
structure EnrollFS where
  file : List (String × Yaml)
  backup : Option (List (String × Yaml))

/-- unenroll_repository (lines 156 to 203).  The configuration file is
assumed to exist (otherwise _load_mkdocs_config raises).  Returns none
when the nav key holds a non-sequence value, on which the Python loop
would fail; otherwise returns the result Bool together with the file
state after the call: the YAML file is rewritten, after an optional
backup, only when an entry was removed. -/
def unenroll_repository (repositoryName : String) (fs : EnrollFS)
    (backupConfig : Bool) : Option (Bool × EnrollFS) :=
  match (List.lookup "nav" fs.file).getD (Yaml.seq []) with
  | .seq nav =>
      let (newNav, removed) := unenrollNav repositoryName nav
      if removed then
        let fs1 := if backupConfig then { fs with backup := some fs.file } else fs
        let newFile := fs1.file.map (fun kv =>
          if kv.1 = "nav" then (kv.1, Yaml.seq newNav) else kv)
        some (true, { fs1 with file := newFile })
      else some (false, fs)
  | _ => none

/-- The entries of the Projects section that the unenrollment loop
inspects: those of the first mapping navigation item carrying a Projects
key whose value is a sequence. -/
def projectsEntries : List Yaml → List Yaml
  | [] => []
  | (.map kvs) :: rest =>
      (match List.lookup "Projects" kvs with
       | some (.seq projects) => projects
       | some _ => []
       | none => projectsEntries rest)
  | _ :: rest => projectsEntries rest

/- ---------------------------------------------------------------------
Concrete sample data used by witnesses
--------------------------------------------------------------------- -/

/-- A repository-scoped request used to witness the middleware theorems:
a DELETE on a repository documentation path with proxy credentials. -/
def sampleRepoRequest : PyRequest :=
  { path := "/docs/repo/secret-repo/index",
    method := "DELETE",
    headers := [("x-user", "alice"), ("X-Auth-Request-Access-Token", "tok")] }

/-- A public request used to witness the middleware theorems. -/
def samplePublicRequest : PyRequest :=
  { path := "/health", method := "GET", headers := [] }

/-- A sample cache entry written at time 100 for the TTL witness. -/
def sampleCacheEntry : CacheEntry :=
  { username := "alice", repository := "proj", githubPermission := "read",
    permissions := ["repo:read"], roleName := none, hasAccess := true,
    cachedAt := 100 }

/-- A one-entry sample cache for the TTL witness. -/
def sampleCache : Cache := [("alice:proj", sampleCacheEntry)]

/-- A sample navigation tree with a Projects section holding one
enrolled repository, for the unenrollment witness. -/
def sampleNav : List Yaml :=
  [Yaml.map [("Home", Yaml.str "index.md")],
   Yaml.map [("Projects", Yaml.seq
     [Yaml.map [("Overview", Yaml.str "projects/index.md")],
      Yaml.map [("Alpha", Yaml.str "!import https://example.invalid/alpha.git")]])]]

/-- A sample on-disk configuration state for the unenrollment witness. -/
def sampleEnrollFS : EnrollFS :=
  { file := [("site_name", Yaml.str "Docs"), ("nav", Yaml.seq sampleNav)],
    backup := none }

/- ---------------------------------------------------------------------
Helper lemmas
--------------------------------------------------------------------- -/

/-- A list starts with itself followed by anything. -/
theorem listStarts_of_append (p t : List Char) : listStarts (p ++ t) p = true := by
  induction p with
  | nil => simp [listStarts]
  | cons c cs ih => simp [listStarts, ih]

/-- A list decomposes as its verified head followed by the rest. -/
theorem eq_append_of_listStarts (p : List Char) (s : List Char)
    (h : listStarts s p = true) : s = p ++ s.drop p.length := by
  induction p generalizing s with
  | nil => simp
  | cons d ds ih =>
    cases s with
    | nil => simp [listStarts] at h
    | cons c cs =>
      simp only [listStarts, Bool.and_eq_true] at h
      obtain ⟨h1, h2⟩ := h
      have hcd : c = d := eq_of_beq h1
      subst hcd
      rw [List.length_cons, List.drop_succ_cons]
      exact congrArg (List.cons c) (ih cs h2)

/-- A fresh check on an empty cache reduces to membership of the
requested capability token in the list the role maps to. -/
theorem checkFresh_eq (role perm : String) (now : Nat) (u r org : String)
    (rn : Option String) :
    (check_repository_access [] now u r perm (some org) (.ok role rn) none).1
      = (roleMappingGet role).contains ("repo:" ++ perm) := rfl

/-- Monotonicity of the role-capability table holds for every capability
other than repo:triage, checked exhaustively over the five roles. -/
theorem roleMapping_mono_bool :
    (roleNames.all fun r1 => roleNames.all fun r2 =>
      !(decide (roleRank r1 ≤ roleRank r2)) ||
        ((roleMappingGet r1).all fun cap =>
          (cap == "repo:triage") || (roleMappingGet r2).contains cap)) = true := by
  decide

/-- Unpacked form of the previous lemma. -/
theorem roleMapping_mono_aux (r1 r2 cap : String)
    (h1 : r1 ∈ roleNames) (h2 : r2 ∈ roleNames)
    (hrank : roleRank r1 ≤ roleRank r2) (hne : cap ≠ "repo:triage")
    (hcap : cap ∈ roleMappingGet r1) : cap ∈ roleMappingGet r2 := by
  have hb := roleMapping_mono_bool
  rw [List.all_eq_true] at hb
  have hb1 := hb r1 h1
  rw [List.all_eq_true] at hb1
  have hb2 := hb1 r2 h2
  rw [Bool.or_eq_true] at hb2
  rcases hb2 with hcontra | hall
  · rw [Bool.not_eq_true', decide_eq_false_iff_not] at hcontra
    exact absurd hrank hcontra
  · rw [List.all_eq_true] at hall
    have hcap2 := hall cap hcap
    rw [Bool.or_eq_true] at hcap2
    rcases hcap2 with heq | hmem
    · exact absurd (eq_of_beq heq) hne
    · simpa using hmem

/-- Characterization of verify_github_signature: it accepts exactly the
sha256= tag followed by the digest. -/
theorem verify_iff (H : String → List Nat → String) (pl : List Nat)
    (sig sec : String) :
    verify_github_signature H pl sig sec = true ↔ sig = "sha256=" ++ H sec pl := by
  constructor
  · intro h
    by_cases hp : pyStartswith sig "sha256=" = true
    · simp [verify_github_signature, hp] at h
      have hp2 : listStarts sig.data "sha256=".data = true := hp
      have hd : sig.data = "sha256=".data ++ sig.data.drop 7 := by
        simpa using eq_append_of_listStarts "sha256=".data sig.data hp2
      have hsig : sig = String.mk ("sha256=".data ++ sig.data.drop 7) :=
        congrArg String.mk hd
      rw [h]
      exact hsig
    · rw [Bool.not_eq_true] at hp
      simp [verify_github_signature, hp] at h
  · intro h
    subst h
    have hp : pyStartswith ("sha256=" ++ H sec pl) "sha256=" = true :=
      listStarts_of_append "sha256=".data (H sec pl).data
    have hslice : pySliceFrom ("sha256=" ++ H sec pl) 7 = H sec pl := by
      show String.mk (("sha256=" ++ H sec pl).data.drop 7) = H sec pl
      rw [show ("sha256=" ++ H sec pl).data = "sha256=".data ++ (H sec pl).data from rfl,
        show (7 : Nat) = "sha256=".data.length from rfl, List.drop_left]
    simp [verify_github_signature, hp, hslice]

/- ---------------------------------------------------------------------
Claim theorems
--------------------------------------------------------------------- -/

/-- C1, counterexample: the role-to-capability mapping is not monotone in
the role order.  The role triage is ranked below write, and triage grants
the capability repo:triage, but write, maintain and admin do not grant it;
accordingly check_repository_access with required_permission triage
succeeds under a fresh triage role and fails under the higher admin
role. -/
theorem c1_role_hierarchy_counterexample :
    roleRank "triage" < roleRank "write"
    ∧ "repo:triage" ∈ roleMappingGet "triage"
    ∧ "repo:triage" ∉ roleMappingGet "write"
    ∧ "repo:triage" ∉ roleMappingGet "maintain"
    ∧ "repo:triage" ∉ roleMappingGet "admin"
    ∧ (check_repository_access [] 0 "alice" "proj" "triage" (some "org")
        (.ok "triage" none) none).1 = true
    ∧ (check_repository_access [] 0 "alice" "proj" "triage" (some "org")
        (.ok "admin" none) none).1 = false := by
  decide

/-- C1, amended: for every pair of roles of the mapping table with the
first ranked no higher than the second, every capability granted to the
lower role other than repo:triage is also granted to the higher role, and
check_repository_access is monotone in the role for any
required_permission whose capability token differs from repo:triage. -/
theorem c1_role_hierarchy_amended (r1 r2 cap perm : String)
    (h1 : r1 ∈ roleNames) (h2 : r2 ∈ roleNames)
    (hrank : roleRank r1 ≤ roleRank r2)
    (hcap : cap ∈ roleMappingGet r1) (hne : cap ≠ "repo:triage")
    (hperm : "repo:" ++ perm ≠ "repo:triage") :
    cap ∈ roleMappingGet r2
    ∧ ((check_repository_access [] 0 "u" "rep" perm (some "org")
          (.ok r1 none) none).1 = true →
       (check_repository_access [] 0 "u" "rep" perm (some "org")
          (.ok r2 none) none).1 = true) := by
  refine ⟨roleMapping_mono_aux r1 r2 cap h1 h2 hrank hne hcap, ?_⟩
  intro hchk
  rw [checkFresh_eq] at hchk ⊢
  have hmem : ("repo:" ++ perm) ∈ roleMappingGet r1 := by simpa using hchk
  have hres := roleMapping_mono_aux r1 r2 ("repo:" ++ perm) h1 h2 hrank hperm hmem
  simpa using hres

/-- C1, witness for the amended theorem at the roles read and admin and
the capability repo:read. -/
theorem c1_role_hierarchy_amended_witness :
    "repo:read" ∈ roleMappingGet "admin"
    ∧ ((check_repository_access [] 0 "u" "rep" "read" (some "org")
          (.ok "read" none) none).1 = true →
       (check_repository_access [] 0 "u" "rep" "read" (some "org")
          (.ok "admin" none) none).1 = true) :=
  c1_role_hierarchy_amended "read" "admin" "repo:read" "read"
    (by decide) (by decide) (by decide) (by decide) (by decide) (by decide)

/-- C5: evaluating the rewriting chain of the source on the round-trip
example of the claim, with the process working directory app, yields a
working-directory-dependent result, not the expected
/projects/x/api/ref/#install; the intended rewriting, modelled from the
rewriter tests with the resolve step freed of the working directory,
yields exactly the expected string.  Path.resolve on line 224 of
rewriter.py prepends the current working directory to the relative
documentation path, which the unit tests of the rewriter do not
anticipate. -/
theorem c5_rewrite_cwd_dependent :
    rewriteUrl ["app"] "../api/ref.md#install"
      { repoName := "x", basePath := "/projects/x/" } "docs/guide/setup.md"
      = "/projects/x/app/docs/api/ref/#install"
    ∧ rewriteUrl ["app"] "../api/ref.md#install"
      { repoName := "x", basePath := "/projects/x/" } "docs/guide/setup.md"
      ≠ "/projects/x/api/ref/#install"
    ∧ rewriteUrlIntended "../api/ref.md#install"
      { repoName := "x", basePath := "/projects/x/" } "docs/guide/setup.md"
      = "/projects/x/api/ref/#install" := by
  refine ⟨rfl, ?_, rfl⟩
  decide

/-- C6: verify_github_signature accepts exactly the string sha256=
followed by the digest of the payload under the secret; hence a signature
produced under one secret is rejected under another secret whose digest
of the payload differs, and a payload mutated after signing is rejected
whenever its digest differs from the original one. -/
theorem c6_signature_verification (H : String → List Nat → String)
    (payload payload2 : List Nat) (sig s1 s2 : String)
    (hsec : H s1 payload ≠ H s2 payload)
    (hmut : H s1 payload ≠ H s1 payload2) :
    (verify_github_signature H payload sig s1 = true
      ↔ sig = "sha256=" ++ H s1 payload)
    ∧ verify_github_signature H payload ("sha256=" ++ H s1 payload) s2 = false
    ∧ verify_github_signature H payload2 ("sha256=" ++ H s1 payload) s1 = false := by
  refine ⟨verify_iff H payload sig s1, ?_, ?_⟩
  · by_contra hb
    rw [Bool.not_eq_false] at hb
    have heq := (verify_iff H payload ("sha256=" ++ H s1 payload) s2).mp hb
    have hdata : "sha256=".data ++ (H s1 payload).data
        = "sha256=".data ++ (H s2 payload).data := congrArg String.data heq
    have h3 := List.append_cancel_left hdata
    exact hsec (congrArg String.mk h3)
  · by_contra hb
    rw [Bool.not_eq_false] at hb
    have heq := (verify_iff H payload2 ("sha256=" ++ H s1 payload) s1).mp hb
    have hdata : "sha256=".data ++ (H s1 payload).data
        = "sha256=".data ++ (H s1 payload2).data := congrArg String.data heq
    have h3 := List.append_cancel_left hdata
    exact hmut (congrArg String.mk h3)

/-- C6, witness at a concrete digest function, payloads and secrets. -/
theorem c6_signature_verification_witness :
    (verify_github_signature
        (fun sec pl => sec ++ String.mk (List.replicate pl.length 'x'))
        [0] "sha256=bogus" "a" = true
      ↔ "sha256=bogus"
          = "sha256=" ++ (fun sec pl =>
              sec ++ String.mk (List.replicate pl.length 'x')) "a" [0])
    ∧ verify_github_signature
        (fun sec pl => sec ++ String.mk (List.replicate pl.length 'x'))
        [0] ("sha256=" ++ (fun sec pl =>
          sec ++ String.mk (List.replicate pl.length 'x')) "a" [0]) "b" = false
    ∧ verify_github_signature
        (fun sec pl => sec ++ String.mk (List.replicate pl.length 'x'))
        [0, 1] ("sha256=" ++ (fun sec pl =>
          sec ++ String.mk (List.replicate pl.length 'x')) "a" [0]) "a" = false :=
  c6_signature_verification
    (fun sec pl => sec ++ String.mk (List.replicate pl.length 'x'))
    [0] [0, 1] "sha256=bogus" "a" "b" (by decide) (by decide)

/-- C7: when the configured webhook secret is unset or empty, the
signature gate of handle_github_webhook never answers 401 for any payload
and any value of the signature header, and proceeds to payload parsing;
with a nonempty secret the 401 branch is reachable. -/
theorem c7_empty_secret_skips_verification
    (H : String → List Nat → String) (payload : List Nat)
    (sigHeader : Option String) (secretOpt : Option String)
    (hsec : secretOpt.getD "" = "") :
    webhookSignatureGate H secretOpt payload sigHeader = WebhookGate.proceed
    ∧ webhookSignatureGate (fun sec _ => sec) (some "hook-secret") [1]
        (some "sha256=bad") = WebhookGate.unauthorized := by
  constructor
  · simp [webhookSignatureGate, hsec]
  · decide

/-- C7, witness with an absent secret and a malformed signature header. -/
theorem c7_empty_secret_skips_verification_witness :
    webhookSignatureGate (fun sec _ => sec) none [2] (some "garbage")
      = WebhookGate.proceed
    ∧ webhookSignatureGate (fun sec _ => sec) (some "hook-secret") [1]
        (some "sha256=bad") = WebhookGate.unauthorized :=
  c7_empty_secret_skips_verification (fun sec _ => sec) [2] (some "garbage")
    none rfl

/-- C9: any role string that is not a key of GITHUB_ROLE_MAPPING maps to
the empty capability list, and a fresh check_repository_access returns
False on it for every required permission. -/
theorem c9_unknown_role_denied (role : String)
    (hrole : List.lookup role GITHUB_ROLE_MAPPING = none)
    (now : Nat) (u r perm org : String) (rn : Option String) :
    roleMappingGet role = []
    ∧ (check_repository_access [] now u r perm (some org)
        (.ok role rn) none).1 = false := by
  have hmap : roleMappingGet role = [] := by simp [roleMappingGet, hrole]
  refine ⟨hmap, ?_⟩
  rw [checkFresh_eq, hmap]
  rfl

/-- C9, witness at the role string none, which the GitHub endpoint
returns for collaborators without access. -/
theorem c9_unknown_role_denied_witness :
    roleMappingGet "none" = []
    ∧ (check_repository_access [] 3 "alice" "proj" "write" (some "org")
        (.ok "none" none) none).1 = false :=
  c9_unknown_role_denied "none" (by decide) 3 "alice" "proj" "write" "org" none

/-- Association-list lookup on a cons cell as a conditional. -/
theorem lookup_cons_eq (a k : String) (v : CacheEntry) (es : Cache) :
    List.lookup a ((k, v) :: es) = if a == k then some v else List.lookup a es := by
  cases h : a == k <;> simp [List.lookup, h]

/-- C8: clear_user_cache removes exactly the entries whose key starts
with the username followed by a colon, leaving the lookup of every other
key unchanged, for every prior cache state; in particular keys of other
usernames, including usernames of which the argument is a proper prefix,
are untouched. -/
theorem c8_clear_user_cache_exact (username : String) (cache : Cache) (k : String) :
    List.lookup k (clear_user_cache username cache)
      = if pyStartswith k (username ++ ":") then none
        else List.lookup k cache := by
  induction cache with
  | nil =>
      cases h : pyStartswith k (username ++ ":") <;> simp [clear_user_cache, h]
  | cons hd tl ih =>
      obtain ⟨hk, v⟩ := hd
      by_cases hkk : k = hk
      · subst hkk
        cases hpre : pyStartswith k (username ++ ":")
        · simp [clear_user_cache, List.filter, hpre, lookup_cons_eq] at ih ⊢
        · simp [clear_user_cache, List.filter, hpre, lookup_cons_eq] at ih ⊢
          exact ih
      · have hne : (k == hk) = false := by
          simp [hkk]
        cases hpre : pyStartswith hk (username ++ ":")
        · simp [clear_user_cache, List.filter, hpre, lookup_cons_eq, hne] at ih ⊢
          exact ih
        · simp [clear_user_cache, List.filter, hpre, lookup_cons_eq, hne] at ih ⊢
          exact ih

/-- C4: for a cache entry written at time T for a user and repository,
every check before T plus the TTL answers the membership test from the
cached permission list, leaves the cache unchanged and performs no GitHub
lookup; every check from T plus the TTL on performs a fresh GitHub
lookup, evicts the stale entry (reinserting a fresh one exactly when the
lookup yields permission data), and answers only from the fresh data,
never from the expired entry. -/
theorem c4_cache_ttl (cache : Cache) (u r p : String) (org : Option String)
    (resp : GithubResponse) (T t1 t2 : Nat) (e : CacheEntry)
    (hk : List.lookup (getCacheKey u r) cache = some e)
    (hT : e.cachedAt = T)
    (h1 : t1 < T + cacheTtlSeconds)
    (h2 : T + cacheTtlSeconds ≤ t2) :
    check_repository_access cache t1 u r p org resp none
      = (e.permissions.contains ("repo:" ++ p), cache, false)
    ∧ (check_repository_access cache t2 u r p org resp none).2.2 = true
    ∧ (check_repository_access cache t2 u r p org resp none).2.1
        = (match getRepositoryPermission u r org resp with
           | some pd => dictInsert (getCacheKey u r)
               { toPermData := pd, cachedAt := t2 }
               (dictErase (getCacheKey u r) cache)
           | none => dictErase (getCacheKey u r) cache)
    ∧ (check_repository_access cache t2 u r p org resp none).1
        = (match getRepositoryPermission u r org resp with
           | some pd => pd.permissions.contains ("repo:" ++ p)
           | none => false) := by
  subst hT
  have hvalid1 : isCacheValid t1 e = true := by
    simp [isCacheValid]
    exact h1
  have hvalid2 : isCacheValid t2 e = false := by
    simp [isCacheValid]
    omega
  refine ⟨?_, ?_, ?_, ?_⟩
  · simp [check_repository_access, getCachedPermission, hk, hvalid1]
  · simp [check_repository_access, getCachedPermission, hk, hvalid2]
    cases hg : getRepositoryPermission u r org resp <;> simp [hg]
  · simp [check_repository_access, getCachedPermission, hk, hvalid2]
    cases hg : getRepositoryPermission u r org resp <;> simp [hg]
  · simp [check_repository_access, getCachedPermission, hk, hvalid2]
    cases hg : getRepositoryPermission u r org resp <;> simp [hg]

/-- C4, witness: with the sample entry written at 100, a check at 699
answers from the cache and a check at 700 refreshes. -/
theorem c4_cache_ttl_witness :
    check_repository_access sampleCache 699 "alice" "proj" "read" (some "org")
        (.ok "write" none) none
      = (sampleCacheEntry.permissions.contains ("repo:" ++ "read"), sampleCache, false)
    ∧ (check_repository_access sampleCache 700 "alice" "proj" "read" (some "org")
        (.ok "write" none) none).2.2 = true
    ∧ (check_repository_access sampleCache 700 "alice" "proj" "read" (some "org")
        (.ok "write" none) none).2.1
        = (match getRepositoryPermission "alice" "proj" (some "org") (.ok "write" none) with
           | some pd => dictInsert (getCacheKey "alice" "proj")
               { toPermData := pd, cachedAt := 700 }
               (dictErase (getCacheKey "alice" "proj") sampleCache)
           | none => dictErase (getCacheKey "alice" "proj") sampleCache)
    ∧ (check_repository_access sampleCache 700 "alice" "proj" "read" (some "org")
        (.ok "write" none) none).1
        = (match getRepositoryPermission "alice" "proj" (some "org") (.ok "write" none) with
           | some pd => pd.permissions.contains ("repo:" ++ "read")
           | none => false) :=
  c4_cache_ttl sampleCache "alice" "proj" "read" (some "org") (.ok "write" none)
    100 699 700 sampleCacheEntry rfl rfl (by decide) (by decide)

/-- C2: for a repository-scoped, non-public request with proxy
credentials present, dispatch asks the permission manager only for the
read permission, whatever the HTTP method is (the method field does not
influence dispatch at all); the separate helper
get_required_permission_for_method maps GET and HEAD to read, POST, PUT
and PATCH to write, DELETE to admin and any other method to read, and is
not consulted by dispatch. -/
theorem c2_dispatch_always_read (pm : String → String → String → String → Bool)
    (userHeader : String) (req : PyRequest) (repoName u t m other : String)
    (callNext1 callNext2 : PyResult Response)
    (hpub : isPublicEndpoint req.path = false)
    (hrepo : extractRepositoryFromUrl req.path = some repoName)
    (huser : getUsernameFromRequest true userHeader req = some u)
    (htok : getAccessTokenFromRequest req = some t)
    (ht : t ≠ "")
    (hm : List.lookup (pyUpper other) methodPermissions = none) :
    (dispatch pm true userHeader req callNext1 callNext2).2 = ["read"]
    ∧ dispatch pm true userHeader
        { path := req.path, method := m, headers := req.headers }
        callNext1 callNext2
      = dispatch pm true userHeader req callNext1 callNext2
    ∧ get_required_permission_for_method "GET" = "read"
    ∧ get_required_permission_for_method "HEAD" = "read"
    ∧ get_required_permission_for_method "POST" = "write"
    ∧ get_required_permission_for_method "PUT" = "write"
    ∧ get_required_permission_for_method "PATCH" = "write"
    ∧ get_required_permission_for_method "DELETE" = "admin"
    ∧ get_required_permission_for_method other = "read" := by
  have hval : validateRepositoryAccess pm true userHeader req repoName
      = (pm u repoName t "read", ["read"]) := by
    simp [validateRepositoryAccess, huser, htok, ht]
  refine ⟨?_, ?_, by decide, by decide, by decide, by decide, by decide, by decide, ?_⟩
  · simp only [dispatch, hpub, hrepo, hval, Bool.false_eq_true, if_false]
    cases hpm : pm u repoName t "read"
    · simp [repositoryAccessDenied]
    · cases callNext1 with
      | ok a => simp
      | raised e => cases e <;> simp
  · cases req
    rfl
  · simp [get_required_permission_for_method, hm]

/-- C2, witness: a DELETE request on a repository path still asks only
for read, and OPTIONS falls back to read in the method helper. -/
theorem c2_dispatch_always_read_witness :
    (dispatch (fun _ _ _ _ => true) true "x-user" sampleRepoRequest
        (.ok { body := "downstream" }) (.ok { body := "downstream2" })).2 = ["read"]
    ∧ dispatch (fun _ _ _ _ => true) true "x-user"
        { path := sampleRepoRequest.path, method := "PATCH",
          headers := sampleRepoRequest.headers }
        (.ok { body := "downstream" }) (.ok { body := "downstream2" })
      = dispatch (fun _ _ _ _ => true) true "x-user" sampleRepoRequest
        (.ok { body := "downstream" }) (.ok { body := "downstream2" })
    ∧ get_required_permission_for_method "GET" = "read"
    ∧ get_required_permission_for_method "HEAD" = "read"
    ∧ get_required_permission_for_method "POST" = "write"
    ∧ get_required_permission_for_method "PUT" = "write"
    ∧ get_required_permission_for_method "PATCH" = "write"
    ∧ get_required_permission_for_method "DELETE" = "admin"
    ∧ get_required_permission_for_method "OPTIONS" = "read" :=
  c2_dispatch_always_read (fun _ _ _ _ => true) "x-user" sampleRepoRequest
    "secret-repo" "alice" "tok" "PATCH" "OPTIONS"
    (.ok { body := "downstream" }) (.ok { body := "downstream2" })
    (by decide) (by decide) (by decide) (by decide) (by decide) (by decide)

/-- C3: the dispatch handler propagates HTTPExceptions unchanged, both
the internally raised 403 for a denied repository request and one raised
downstream, while any other exception raised during dispatch is swallowed
and the request is handed to the downstream handler again; by contrast
check_repository_access returns False on any exception raised during its
body and never propagates it. -/
theorem c3_fail_open_asymmetry (pm : String → String → String → String → Bool)
    (userHeader : String) (req1 req2 : PyRequest) (repoName u t : String)
    (callNext1 callNext2 : PyResult Response) (c : Nat) (d m : String)
    (cache : Cache) (now : Nat) (u2 r2 p2 : String) (org : Option String)
    (resp : GithubResponse) (excMsg : String)
    (hpub1 : isPublicEndpoint req1.path = false)
    (hrepo : extractRepositoryFromUrl req1.path = some repoName)
    (huser : getUsernameFromRequest true userHeader req1 = some u)
    (htok : getAccessTokenFromRequest req1 = some t)
    (ht : t ≠ "")
    (hpm : pm u repoName t "read" = false)
    (hpub2 : isPublicEndpoint req2.path = true) :
    (dispatch pm true userHeader req1 callNext1 callNext2).1
      = .raised (repositoryAccessDenied repoName)
    ∧ (dispatch pm true userHeader req2 (.raised (.http c d)) callNext2).1
      = .raised (.http c d)
    ∧ (dispatch pm true userHeader req2 (.raised (.other m)) callNext2).1
      = callNext2
    ∧ (check_repository_access cache now u2 r2 p2 org resp (some excMsg)).1
      = false := by
  have hval : validateRepositoryAccess pm true userHeader req1 repoName
      = (false, ["read"]) := by
    simp [validateRepositoryAccess, huser, htok, ht, hpm]
  refine ⟨?_, ?_, ?_, rfl⟩
  · simp only [dispatch, hpub1, hrepo, hval, Bool.false_eq_true, if_false]
    simp [repositoryAccessDenied]
  · simp [dispatch, hpub2]
  · simp [dispatch, hpub2]

/-- C3, witness: a denied repository request yields the 403, a public
request propagates a downstream 404 HTTPException, a public request with
a downstream internal error is retried through the handler, and an
exception inside check_repository_access yields False. -/
theorem c3_fail_open_asymmetry_witness :
    (dispatch (fun _ _ _ _ => false) true "x-user" sampleRepoRequest
        (.ok { body := "downstream" }) (.ok { body := "downstream2" })).1
      = .raised (repositoryAccessDenied "secret-repo")
    ∧ (dispatch (fun _ _ _ _ => false) true "x-user" samplePublicRequest
        (.raised (.http 404 "not found")) (.ok { body := "downstream2" })).1
      = .raised (.http 404 "not found")
    ∧ (dispatch (fun _ _ _ _ => false) true "x-user" samplePublicRequest
        (.raised (.other "boom")) (.ok { body := "downstream2" })).1
      = .ok { body := "downstream2" }
    ∧ (check_repository_access [] 5 "alice" "proj" "read" (some "org")
        (.ok "read" none) (some "cancelled")).1 = false :=
  c3_fail_open_asymmetry (fun _ _ _ _ => false) "x-user" sampleRepoRequest
    samplePublicRequest "secret-repo" "alice" "tok"
    (.ok { body := "downstream" }) (.ok { body := "downstream2" })
    404 "not found" "boom" [] 5 "alice" "proj" "read" (some "org")
    (.ok "read" none) "cancelled"
    (by decide) (by decide) (by decide) (by decide) (by decide) rfl (by decide)

/-- When no entry of the Projects section matches, the unenrollment loop
removes nothing. -/
theorem unenrollNav_no_match (name : String) (nav : List Yaml)
    (h : ∀ e ∈ projectsEntries nav, entryMatchesRepo name e = false) :
    (unenrollNav name nav).2 = false := by
  induction nav with
  | nil => rfl
  | cons item rest ih =>
      cases item with
      | str s =>
          rcases hres : unenrollNav name rest with ⟨r, b⟩
          have hb := ih h
          rw [hres] at hb
          simp only [unenrollNav, hres]
          exact hb
      | seq xs =>
          rcases hres : unenrollNav name rest with ⟨r, b⟩
          have hb := ih h
          rw [hres] at hb
          simp only [unenrollNav, hres]
          exact hb
      | map kvs =>
          cases hlk : List.lookup "Projects" kvs with
          | none =>
              have h2 : ∀ e ∈ projectsEntries rest, entryMatchesRepo name e = false := by
                intro e he
                apply h
                simp [projectsEntries, hlk, he]
              rcases hres : unenrollNav name rest with ⟨r, b⟩
              have hb := ih h2
              rw [hres] at hb
              simp only [unenrollNav, hlk, hres]
              exact hb
          | some y =>
              cases y with
              | str s => simp [unenrollNav, hlk]
              | map m => simp [unenrollNav, hlk]
              | seq projects =>
                  have hall : ∀ e ∈ projects, (!(entryMatchesRepo name e)) = true := by
                    intro e he
                    have hmatch := h e (by simp [projectsEntries, hlk, he])
                    simp [hmatch]
                  have hfilter : projects.filter (fun e => !(entryMatchesRepo name e))
                      = projects := List.filter_eq_self.mpr hall
                  simp [unenrollNav, hlk, hfilter]

/-- C10: when no entry of the Projects section of an existing navigation
configuration has a key case-insensitively containing the repository
name, unenroll_repository returns False and performs no write: the file
state after the call, backup included, is the state before it. -/
theorem c10_unenroll_absent_no_write (name : String) (fs : EnrollFS)
    (backupConfig : Bool) (nav : List Yaml)
    (hnav : (List.lookup "nav" fs.file).getD (Yaml.seq []) = Yaml.seq nav)
    (h : ∀ e ∈ projectsEntries nav, entryMatchesRepo name e = false) :
    unenroll_repository name fs backupConfig = some (false, fs) := by
  have hrm := unenrollNav_no_match name nav h
  unfold unenroll_repository
  rw [hnav]
  rcases hres : unenrollNav name nav with ⟨r, b⟩
  rw [hres] at hrm
  simp only [] at hrm
  subst hrm
  simp [hres]

/-- C10, witness: unenrolling a name absent from the sample Projects
section returns False and leaves the configuration state untouched. -/
theorem c10_unenroll_absent_no_write_witness :
    unenroll_repository "ghost" sampleEnrollFS true = some (false, sampleEnrollFS) :=
  c10_unenroll_absent_no_write "ghost" sampleEnrollFS true sampleNav rfl (by decide)
